import Mathlib

/-!
Verification of the static-analysis toolkit of the Code-QA-Crew repository.

The Python source is shallowly embedded: file contents are `List Char` or
`List String` (lines), scores are `Int` (Python integers), rationals stand
for Python floats where exact arithmetic suffices, and code that can raise
exceptions is modelled in `Except` with the `try/except` structure made
explicit.  Each definition mirrors one Python function of the repository
(names are kept where Lean permits).
-/

namespace QaTools

/-- Finding lists accumulated by `check_python_syntax` (qa_tools.py),
one list per key of its `results` dict. -/
structure PySyntaxResults where
  syntax_errors : List String
  style_issues : List String
  complexity_warnings : List String
  best_practices : List String
  deriving DecidableEq

/-- `sum(len(results[key]) for key in results)` in `_calculate_python_score`. -/
def pythonTotalIssues (r : PySyntaxResults) : Nat :=
  r.syntax_errors.length + r.style_issues.length +
    r.complexity_warnings.length + r.best_practices.length

/-- qa_tools.py `_calculate_python_score`. -/
def _calculate_python_score (r : PySyntaxResults) : Int :=
  let total_issues := pythonTotalIssues r
  if total_issues = 0 then 10
  else if total_issues ≤ 5 then 8
  else if total_issues ≤ 15 then 6
  else if total_issues ≤ 30 then 4
  else 2

/-- Finding lists accumulated by `scan_security_vulnerabilities` (qa_tools.py),
one list per key of its `vulnerabilities` dict. -/
structure SecurityVulnerabilities where
  high_risk : List String
  medium_risk : List String
  low_risk : List String
  best_practices : List String
  deriving DecidableEq

/-- qa_tools.py `_calculate_security_score`
(`best_practices` is not consulted by the source). -/
def _calculate_security_score (v : SecurityVulnerabilities) : Int :=
  let high : Int := v.high_risk.length
  let medium : Int := v.medium_risk.length
  let low : Int := v.low_risk.length
  if high > 0 then max 2 (6 - high)
  else if medium > 0 then max 4 (8 - medium)
  else if low > 0 then max 6 (9 - low)
  else 10

/-- Analysis dict of `analyze_react_components` (qa_tools.py); the score
counts every key except `components_found`. -/
structure ReactAnalysis where
  components_found : Nat
  hook_usage : List String
  prop_issues : List String
  performance_concerns : List String
  accessibility_issues : List String
  best_practices : List String
  deriving DecidableEq

def reactTotalIssues (a : ReactAnalysis) : Nat :=
  a.hook_usage.length + a.prop_issues.length + a.performance_concerns.length +
    a.accessibility_issues.length + a.best_practices.length

/-- qa_tools.py `_calculate_react_score`. -/
def _calculate_react_score (a : ReactAnalysis) : Int :=
  let total_issues := reactTotalIssues a
  if total_issues = 0 then 10
  else if total_issues ≤ 3 then 8
  else if total_issues ≤ 8 then 6
  else if total_issues ≤ 15 then 4
  else 2

/-- Analysis dict of `validate_sql_queries` (qa_tools.py); the score counts
every key except `queries_found`. -/
structure SqlAnalysis where
  queries_found : Nat
  syntax_issues : List String
  security_risks : List String
  performance_issues : List String
  best_practices : List String
  deriving DecidableEq

def sqlTotalIssues (a : SqlAnalysis) : Nat :=
  a.syntax_issues.length + a.security_risks.length +
    a.performance_issues.length + a.best_practices.length

/-- qa_tools.py `_calculate_sql_score`. -/
def _calculate_sql_score (a : SqlAnalysis) : Int :=
  let total_issues := sqlTotalIssues a
  if total_issues = 0 then 10
  else if total_issues ≤ 2 then 8
  else if total_issues ≤ 5 then 6
  else if total_issues ≤ 10 then 4
  else 2

/-- Analysis dict of `check_package_dependencies` (qa_tools.py).  The score
consults only `outdated_packages`, `security_vulnerabilities` and
`compatibility_issues`. -/
structure DependencyAnalysis where
  outdated_packages : List String
  security_vulnerabilities : List String
  compatibility_issues : List String
  missing_dependencies : List String
  deriving DecidableEq

def dependencyIssues (a : DependencyAnalysis) : Nat :=
  a.outdated_packages.length + a.security_vulnerabilities.length +
    a.compatibility_issues.length

/-- qa_tools.py `_calculate_dependency_score`. -/
def _calculate_dependency_score (a : DependencyAnalysis) : Int :=
  let issues := dependencyIssues a
  if issues = 0 then 10
  else if issues ≤ 3 then 8
  else if issues ≤ 8 then 6
  else if issues ≤ 15 then 4
  else 2

/-- Metric lists of `analyze_code_complexity` (qa_tools.py). -/
structure ComplexityMetrics where
  cyclomatic_complexity : List String
  cognitive_complexity : List String
  function_length : List String
  class_complexity : List String
  nesting_depth : List String
  deriving DecidableEq

def complexityTotalIssues (m : ComplexityMetrics) : Nat :=
  m.cyclomatic_complexity.length + m.cognitive_complexity.length +
    m.function_length.length + m.class_complexity.length + m.nesting_depth.length

/-- qa_tools.py `_calculate_complexity_score`: `max(2, 10 - total_issues)`. -/
def _calculate_complexity_score (m : ComplexityMetrics) : Int :=
  max 2 (10 - (complexityTotalIssues m : Int))

/-- Category lists of `check_best_practices` (qa_tools.py). -/
structure PracticeChecks where
  naming_conventions : List String
  code_organization : List String
  error_handling : List String
  performance : List String
  readability : List String
  deriving DecidableEq

def practicesTotalIssues (p : PracticeChecks) : Nat :=
  p.naming_conventions.length + p.code_organization.length +
    p.error_handling.length + p.performance.length + p.readability.length

/-- qa_tools.py `_calculate_best_practices_score`:
`max(2, 10 - total_issues // 2)`. -/
def _calculate_best_practices_score (p : PracticeChecks) : Int :=
  max 2 (10 - ((practicesTotalIssues p / 2 : Nat) : Int))

/-- Category lists of `validate_imports` (qa_tools.py); the score counts
every key except `valid_imports`. -/
structure ImportAnalysis where
  valid_imports : List String
  invalid_imports : List String
  unused_imports : List String
  missing_imports : List String
  circular_imports : List String
  deriving DecidableEq

def importIssues (a : ImportAnalysis) : Nat :=
  a.invalid_imports.length + a.unused_imports.length +
    a.missing_imports.length + a.circular_imports.length

/-- qa_tools.py `_calculate_import_score`: `max(2, 10 - issues)`. -/
def _calculate_import_score (a : ImportAnalysis) : Int :=
  max 2 (10 - (importIssues a : Int))

/-- qa_tools.py `_format_issues`: bullet list of the first 10 issues, or a
fixed line when the list is empty. -/
def _format_issues (issues : List String) : String :=
  if issues.isEmpty then "  ✅ No issues found"
  else String.intercalate ("\n") ((issues.take 10).map (fun issue => "  • " ++ issue))

/-! ### Character-level helpers shared by the pattern scanners

Python file contents are embedded as `List Char`; `re.search` of the fixed
patterns of the source is compiled by hand into decidable scans. -/

/-- Substring test: Python's `pat in s` / `re.search` of a literal pattern. -/
def containsSub (pat : List Char) : List Char → Bool
  | [] => pat.isPrefixOf ([] : List Char)
  | c :: rest => pat.isPrefixOf (c :: rest) || containsSub pat rest

/-- Python regex `\s` character class (`[ \t\n\r\f\v]`). -/
def isWsChar (c : Char) : Bool :=
  c = ' ' || c = '\t' || c = '\n' || c = '\r' || c = '\x0b' || c = '\x0c'

/-- ASCII lowering, the effect of `re.IGNORECASE` / `str.lower()` on the
ASCII-only patterns of the source. -/
def lowerChar (c : Char) : Char :=
  if 'A' ≤ c ∧ c ≤ 'Z' then Char.ofNat (c.toNat + 32) else c

def toLowerL (l : List Char) : List Char := l.map lowerChar

/-- `re.search(p, s)`: some suffix position of `s` matches `p`. -/
def existsMatch (p : List Char → Bool) : List Char → Bool
  | [] => p []
  | c :: rest => p (c :: rest) || existsMatch p rest

/-- Matches `name\s*\(` at the head of the input (regexes such as
`eval\s*\(` of `_scan_file_security`). -/
def matchCallAt (name : List Char) (l : List Char) : Bool :=
  name.isPrefixOf l &&
    (match (l.drop name.length).dropWhile isWsChar with
     | '(' :: _ => true
     | _ => false)

/-- The `["\']` character class. -/
def isQuoteChar (c : Char) : Bool := c = '"' || c = '\''

/-- Scan for a closing quote (every character before it is then a
non-quote one, since the scan stops at the first quote). -/
def closeScan : List Char → Bool
  | [] => false
  | d :: r => isQuoteChar d || closeScan r

/-- After the opening quote of `["\'][^"\']+["\']`: at least one non-quote
character followed by a closing quote. -/
def quotedBody : List Char → Bool
  | [] => false
  | c :: rest => !isQuoteChar c && closeScan rest

/-- Matches `password\s*=\s*["\'][^"\']+["\']` at the head of the input. -/
def matchPasswordAt (key : List Char) (l : List Char) : Bool :=
  key.isPrefixOf l &&
    (match (l.drop key.length).dropWhile isWsChar with
     | '=' :: r =>
       match r.dropWhile isWsChar with
       | q :: r2 => isQuoteChar q && quotedBody r2
       | [] => false
     | _ => false)

/-- Final path component of a `/`-separated path (`Path.name`). -/
def pathName (p : String) : String := (p.splitOn ("/")).getLastD p

/-- Helper for `pathSuffix`: scans the reversed name for the last dot;
the extension is empty when the dot is the first or last character. -/
def suffixAux : List Char → List Char → List Char
  | _, [] => []
  | acc, '.' :: rest => if rest.isEmpty || acc.isEmpty then [] else '.' :: acc
  | acc, c :: rest => suffixAux (c :: acc) rest

/-- `Path.suffix`: extension of the final component, including the dot. -/
def pathSuffix (p : String) : String :=
  String.mk (suffixAux [] (pathName p).toList.reverse)

/-- qa_tools.py `_scan_file_security`.  The file read is the `Except`
argument (`.error` = the `open`/`read` raised, swallowed by the function's
`except Exception: pass`, leaving every list empty).  High-risk patterns are
tried in source order; each `re.search` with `re.IGNORECASE` is run on the
ASCII-lowered content. -/
def _scan_file_security (file_path : String) (read : Except String (List Char)) :
    SecurityVulnerabilities :=
  match read with
  | .error _ => ⟨[], [], [], []⟩
  | .ok content =>
    let lower := toLowerL content
    let tag := fun (description : String) => file_path ++ " - " ++ description
    let high_risk :=
      (if existsMatch (matchCallAt (String.toList ("eval"))) lower then
        [tag ("Use of eval() function")] else []) ++
      (if existsMatch (matchCallAt (String.toList ("exec"))) lower then
        [tag ("Use of exec() function")] else []) ++
      (if existsMatch (matchCallAt (String.toList ("__import__"))) lower then
        [tag ("Dynamic imports")] else []) ++
      (if containsSub (String.toList ("shell=true")) lower then
        [tag ("Shell injection risk")] else []) ++
      (if existsMatch (matchPasswordAt (String.toList ("password"))) lower then
        [tag ("Hardcoded password")] else [])
    let medium_risk :=
      (if containsSub (String.toList ("pickle.load")) lower then
        [tag ("Pickle deserialization")] else []) ++
      (if existsMatch (matchCallAt (String.toList ("yaml.load"))) lower then
        [tag ("Unsafe YAML loading")] else []) ++
      (if containsSub (String.toList ("subprocess.call")) lower then
        [tag ("Subprocess usage")] else []) ++
      (if containsSub (String.toList ("os.system")) lower then
        [tag ("OS system calls")] else [])
    let low_risk :=
      if containsSub (String.toList ("TODO")) content ||
          containsSub (String.toList ("FIXME")) content then
        [tag ("Contains TODO/FIXME comments")] else []
    let best_practices :=
      if containsSub (String.toList ("print(")) content && pathSuffix file_path = ".py" then
        [tag ("Use logging instead of print")] else []
    ⟨high_risk, medium_risk, low_risk, best_practices⟩

/-- Result dict of `_analyze_dependency_file` (qa_tools.py). -/
structure DepFileResult where
  count : Nat
  outdated_packages : List String
  security_vulnerabilities : List String
  compatibility_issues : List String
  missing_dependencies : List String
  deriving DecidableEq

/-- Python `str.strip()` (whitespace from both ends). -/
def pyStrip (l : List Char) : List Char :=
  ((l.dropWhile isWsChar).reverse.dropWhile isWsChar).reverse

/-- Outcome of calling a tool entry point: a normal string return, or an
exception escaping to the caller. -/
inductive PyResult where
  | normal (s : String)
  | raised (e : String)
  deriving DecidableEq

/-- The `try: ... except Exception as e: return handler(e)` wrapper that
every tool of qa_tools.py places around its whole body: an exception
raised by the body is converted into a normal string return. -/
def pyRunTool (body : Except String String) (handler : String → String) : PyResult :=
  match body with
  | .ok s => .normal s
  | .error e => .normal (handler e)

/-- The `'='*50` separator used by every report. -/
def eqBar50 : String := String.mk (List.replicate 50 '=')

/-- A Python source file as seen by `_analyze_python_file`: its text and
the outcome of `ast.parse` on it (`some (lineno, msg)` = `SyntaxError`). -/
structure PyFileModel where
  text : List Char
  parseError : Option (Nat × String)

/-- qa_tools.py `_analyze_python_file`.  The file read is the `Except`
argument; a read failure is caught by the function's outer `except` and
recorded as a syntax-error finding.  A `SyntaxError` from `ast.parse` is
caught by the inner `except` and recorded; scanning then continues. -/
def _analyze_python_file (file_path : String) (read : Except String PyFileModel) :
    PySyntaxResults :=
  match read with
  | .error e =>
    ⟨[file_path ++ " - Error reading file: " ++ e], [], [], []⟩
  | .ok f =>
    let content := f.text
    let syntax_errors :=
      match f.parseError with
      | some (lineno, msg) => [file_path ++ ":" ++ toString lineno ++ " - " ++ msg]
      | none => []
    let lineList := content.splitOn '\n'
    let style_issues :=
      (lineList.enum.map
        (fun p =>
          let i := p.1 + 1
          let line := p.2
          (if line.length > 120 then
            [file_path ++ ":" ++ toString i ++ " - Line too long (" ++
              toString line.length ++ " chars)"]
           else []) ++
          (if (pyStrip line).getLast? = some '\\' then
            [file_path ++ ":" ++ toString i ++ " - Avoid line continuation"]
           else []))).flatten
    let best_practices :=
      (if containsSub (String.toList ("import *")) content then
        [file_path ++ " - Avoid wildcard imports"] else []) ++
      (if containsSub (String.toList ("print(")) content ∧
          ¬ containsSub (String.toList ("debug")) (toLowerL file_path.toList) then
        [file_path ++ " - Consider using logging instead of print"] else [])
    ⟨syntax_errors, style_issues, [], best_practices⟩

/-- Pointwise `extend` of the result lists, as in the file loop of
`check_python_syntax`. -/
def extendPyResults (a b : PySyntaxResults) : PySyntaxResults :=
  ⟨a.syntax_errors ++ b.syntax_errors, a.style_issues ++ b.style_issues,
    a.complexity_warnings ++ b.complexity_warnings,
    a.best_practices ++ b.best_practices⟩

/-- The filesystem as observed by `check_python_syntax`: the target path is
missing, a `.py` file, a non-Python file, or a directory whose
`rglob("*.py")` enumeration is the given list (each with its read outcome). -/
inductive PyFsTarget where
  | missing
  | pyFile (path : String) (read : Except String PyFileModel)
  | otherFile
  | dir (pyFiles : List (String × Except String PyFileModel))

/-- The `python_files` list collected by `check_python_syntax`. -/
def pythonFilesOf : PyFsTarget → List (String × Except String PyFileModel)
  | .missing => []
  | .pyFile path read => [(path, read)]
  | .otherFile => []
  | .dir pyFiles => pyFiles

/-- Report f-string of `check_python_syntax` (qa_tools.py). -/
def pythonSyntaxReport (nfiles : Nat) (results : PySyntaxResults) : String :=
  "\n🐍 PYTHON SYNTAX & STYLE ANALYSIS\n" ++ eqBar50 ++
  "\n\n✅ Files Analyzed: " ++ toString nfiles ++
  "\n\n🚨 Syntax Errors (" ++ toString results.syntax_errors.length ++ "):\n" ++
  _format_issues results.syntax_errors ++
  "\n\n⚠️ Style Issues (" ++ toString results.style_issues.length ++ "):\n" ++
  _format_issues results.style_issues ++
  "\n\n📊 Complexity Warnings (" ++ toString results.complexity_warnings.length ++ "):\n" ++
  _format_issues results.complexity_warnings ++
  "\n\n💡 Best Practice Recommendations:\n" ++
  _format_issues results.best_practices ++
  "\n\n🎯 Overall Python Quality Score: " ++
  toString (_calculate_python_score results) ++ "/10\n"

/-- Body of qa_tools.py `check_python_syntax` (everything inside its
`try`); `.error` would be an exception escaping the body. -/
def check_python_syntax_body (target : PyFsTarget) (code_path : String) :
    Except String String :=
  match target with
  | .missing => .ok ("❌ Path does not exist: " ++ code_path)
  | t =>
    let python_files := pythonFilesOf t
    if python_files.isEmpty then .ok ("ℹ️ No Python files found to analyze")
    else
      let results := python_files.foldl
        (fun acc f => extendPyResults acc (_analyze_python_file f.1 f.2))
        ⟨[], [], [], []⟩
      .ok (pythonSyntaxReport python_files.length results)

/-- qa_tools.py `check_python_syntax`: the body wrapped in the tool's
`try/except Exception` which converts any escaping exception into an
error-report string. -/
def check_python_syntax (target : PyFsTarget) (code_path : String) : PyResult :=
  pyRunTool (check_python_syntax_body target code_path)
    (fun e => "❌ Error checking Python syntax: " ++ e)

/-- qa_tools.py `_should_skip_file`. -/
def _should_skip_file (file_path : String) : Bool :=
  let skip_extensions := [".pyc", ".pyo", ".pyd", ".so", ".dll", ".exe", ".bin"]
  let skip_dirs := ["__pycache__", ".git", "node_modules", ".venv", "venv"]
  skip_extensions.contains (pathSuffix file_path) ||
    (file_path.splitOn ("/")).any (fun part => skip_dirs.contains part)

/-- Pointwise `extend` of the vulnerability lists, as in the file loop of
`scan_security_vulnerabilities`. -/
def extendSecurity (a b : SecurityVulnerabilities) : SecurityVulnerabilities :=
  ⟨a.high_risk ++ b.high_risk, a.medium_risk ++ b.medium_risk,
    a.low_risk ++ b.low_risk, a.best_practices ++ b.best_practices⟩

/-- The filesystem as observed by `scan_security_vulnerabilities`: missing,
a single regular file, or a directory whose `rglob("*")` regular files are
the given list (path and read outcome each). -/
inductive SecFsTarget where
  | missing
  | file (path : String) (read : Except String (List Char))
  | dir (files : List (String × Except String (List Char)))

/-- The merged vulnerability dict collected by
`scan_security_vulnerabilities`: a single file is scanned unconditionally,
directory entries are filtered through `_should_skip_file`. -/
def collectVulnerabilities : SecFsTarget → SecurityVulnerabilities
  | .missing => ⟨[], [], [], []⟩
  | .file path read => extendSecurity ⟨[], [], [], []⟩ (_scan_file_security path read)
  | .dir files =>
    files.foldl
      (fun acc f =>
        if ¬ _should_skip_file f.1 then extendSecurity acc (_scan_file_security f.1 f.2)
        else acc)
      ⟨[], [], [], []⟩

/-- Report f-string of `scan_security_vulnerabilities` (qa_tools.py). -/
def securityScanReport (v : SecurityVulnerabilities) : String :=
  let total_issues := v.high_risk.length + v.medium_risk.length + v.low_risk.length
  "\n🔒 SECURITY VULNERABILITY SCAN\n" ++ eqBar50 ++
  "\n\n🚨 High Risk Issues (" ++ toString v.high_risk.length ++ "):\n" ++
  _format_issues v.high_risk ++
  "\n\n⚠️ Medium Risk Issues (" ++ toString v.medium_risk.length ++ "):\n" ++
  _format_issues v.medium_risk ++
  "\n\nℹ️ Low Risk Issues (" ++ toString v.low_risk.length ++ "):\n" ++
  _format_issues v.low_risk ++
  "\n\n💡 Security Best Practices:\n" ++
  _format_issues v.best_practices ++
  "\n\n🎯 Security Score: " ++ toString (_calculate_security_score v) ++ "/10\n" ++
  "📊 Total Issues Found: " ++ toString total_issues ++ "\n"

/-- Body of qa_tools.py `scan_security_vulnerabilities` (everything inside
its `try`). -/
def scan_security_vulnerabilities_body (target : SecFsTarget) (code_path : String) :
    Except String String :=
  match target with
  | .missing => .ok ("❌ Path does not exist: " ++ code_path)
  | t => .ok (securityScanReport (collectVulnerabilities t))

/-- qa_tools.py `scan_security_vulnerabilities`: the body wrapped in the
tool's `try/except Exception`. -/
def scan_security_vulnerabilities (target : SecFsTarget) (code_path : String) : PyResult :=
  pyRunTool (scan_security_vulnerabilities_body target code_path)
    (fun e => "❌ Error scanning security vulnerabilities: " ++ e)

/-- qa_tools.py `_analyze_dependency_file`, `requirements.txt` branch: the
file content is given as its list of lines (`f.readlines()`). -/
def _analyze_dependency_file (file_path : String) (lineList : List String) :
    DepFileResult :=
  lineList.foldl
    (fun results rawLine =>
      let line := pyStrip rawLine.toList
      if line ≠ [] ∧ line.head? ≠ some '#' then
        let results := { results with count := results.count + 1 }
        if ¬ containsSub (String.toList ("==")) line ∧
            ¬ containsSub (String.toList (">=")) line then
          { results with compatibility_issues :=
              results.compatibility_issues ++
                [file_path ++ " - " ++ String.mk line ++ " (no version specified)"] }
        else results
      else results)
    ⟨0, [], [], [], []⟩

/-! ### Live endpoint probe (`check_localhost_site`, qa_tools.py)

The single `requests.get(full_url, timeout=10)` call is modelled by one
`TransportOutcome` argument: the response (status, body text, elapsed
seconds) or the exception class it raised.  The function consumes exactly
one outcome per invocation — the embedding has no retry. -/

/-- Outcome of the one `requests.get` call, matching the `except` clauses
of the source: a response of any status, `requests.exceptions.ConnectionError`,
`requests.exceptions.Timeout`, or any other exception. -/
inductive TransportOutcome where
  | response (status : Nat) (text : List Char) (elapsed : ℚ)
  | connectionError
  | timeoutError
  | otherError (msg : String)

/-- The HTTP request issued by `check_localhost_site`:
`requests.get(full_url, timeout=10)`. -/
structure HttpRequest where
  url : String
  timeout : ℚ

/-- `urljoin(f"http://localhost:{port}", path)` for the root-relative paths
the tool is called with (plain concatenation of host and absolute path). -/
def fullUrl (port path : String) : String :=
  "http://localhost:" ++ port ++ path

/-- The single GET request of one invocation, with its bounded timeout. -/
def probeRequest (port path : String) : HttpRequest :=
  ⟨fullUrl port path, 10⟩

/-- Python's banker's rounding to an integer (`round(x)`). -/
def roundHalfEven (q : ℚ) : ℤ :=
  let f := ⌊q⌋
  let frac := q - f
  if frac < 1/2 then f
  else if frac > 1/2 then f + 1
  else if f % 2 = 0 then f else f + 1

/-- Python `round(x, 2)`. -/
def pyRound2 (q : ℚ) : ℚ := (roundHalfEven (q * 100) : ℚ) / 100

/-- The `site_status` dict of `check_localhost_site` (qa_tools.py). -/
structure SiteStatus where
  url : String
  accessible : Bool
  response_time : Option ℚ
  status_code : Option Nat
  content_checks : List String
  errors : List String
  recommendations : List String
  deriving DecidableEq

/-- The `common_ports` dict of the source (the duplicated `"8080"` key
resolves to its last value, `"Spring Boot / Tomcat"`). -/
def common_ports_desc (port : String) : Option String :=
  if port = "3000" then some ("React/Node.js development server")
  else if port = "3001" then some ("Alternative React/Node.js port")
  else if port = "8000" then some ("Python development server")
  else if port = "8080" then some ("Spring Boot / Tomcat")
  else if port = "5000" then some ("Flask development server")
  else if port = "4200" then some ("Angular development server")
  else if port = "5173" then some ("Vite development server")
  else if port = "3333" then some ("Nuxt.js development server")
  else none

/-- Field updates of `site_status` performed by `check_localhost_site` for
one transport outcome, in source order (the `common_ports` line is appended
after the `try/except`, hence in every branch). -/
def computeSiteStatus (port path : String) (outcome : TransportOutcome) : SiteStatus :=
  let full_url := fullUrl port path
  let portCheck :=
    match common_ports_desc port with
    | some d => ["📋 Expected: " ++ d]
    | none => []
  match outcome with
  | .response s txt elapsed =>
    let content := toLowerL txt
    let response_time := pyRound2 (elapsed * 1000)
    let checks1 :=
      (if containsSub (String.toList ("react")) content ||
          containsSub (String.toList ("react-dom")) content then
        ["✅ React application detected"] else []) ++
      (if containsSub (String.toList ("vue")) content then
        ["✅ Vue.js application detected"] else []) ++
      (if containsSub (String.toList ("angular")) content then
        ["✅ Angular application detected"] else [])
    let errors1 :=
      (if containsSub (String.toList ("error")) content &&
          containsSub (String.toList ("404")) content then
        ["⚠️ 404 error content detected"] else []) ++
      (if containsSub (String.toList ("uncaught")) content ||
          containsSub (String.toList ("exception")) content then
        ["⚠️ JavaScript errors detected in content"] else []) ++
      (if content.length < 100 then
        ["⚠️ Very minimal content - site might not be fully loaded"] else [])
    let checks2 := if s = 200 then ["✅ HTTP 200 OK response"] else []
    let errors2 :=
      if s = 200 then []
      else if s = 404 then ["❌ HTTP 404 Not Found"]
      else if s ≥ 500 then ["❌ Server error: HTTP " ++ toString s]
      else if s ≥ 400 then ["⚠️ Client error: HTTP " ++ toString s]
      else []
    let recommendations :=
      if response_time > 2000 then ["🐌 Slow response time - consider optimization"]
      else if response_time < 100 then ["⚡ Excellent response time"]
      else []
    let htmlOk := containsSub (String.toList ("<html")) content &&
      containsSub (String.toList ("</html>")) content
    let checks3 := if htmlOk then ["✅ Valid HTML structure detected"] else []
    let errors3 := if htmlOk then [] else ["⚠️ Invalid or incomplete HTML structure"]
    let checks4 :=
      (if containsSub (String.toList ("<meta")) content then
        ["✅ Meta tags present"] else []) ++
      (if containsSub (String.toList ("<style")) content ||
          containsSub (String.toList (".css")) content then
        ["✅ CSS styling detected"] else []) ++
      (if containsSub (String.toList ("<script")) content ||
          containsSub (String.toList (".js")) content then
        ["✅ JavaScript detected"] else [])
    { url := full_url, accessible := true,
      response_time := some response_time, status_code := some s,
      content_checks := checks1 ++ checks2 ++ checks3 ++ checks4 ++ portCheck,
      errors := errors1 ++ errors2 ++ errors3,
      recommendations := recommendations }
  | .connectionError =>
    { url := full_url, accessible := false, response_time := none, status_code := none,
      content_checks := portCheck,
      errors := ["❌ Connection refused - site not running on port " ++ port],
      recommendations := ["🔧 Start your development server on port " ++ port] }
  | .timeoutError =>
    { url := full_url, accessible := false, response_time := none, status_code := none,
      content_checks := portCheck,
      errors := ["❌ Request timeout - site taking too long to respond"],
      recommendations := ["🔧 Check server performance and network connectivity"] }
  | .otherError msg =>
    { url := full_url, accessible := false, response_time := none, status_code := none,
      content_checks := portCheck,
      errors := ["❌ Unexpected error: " ++ msg],
      recommendations := [] }

/-- `str(x)` for the optional millisecond value (`None` prints as `None`;
numeric formatting uses the rational's representation rather than CPython
float notation — the report structure, not float formatting, is modelled). -/
def optRatStr : Option ℚ → String
  | none => "None"
  | some q => toString q

def optNatStr : Option Nat → String
  | none => "None"
  | some n => toString n

/-- Report f-string of `check_localhost_site` (qa_tools.py). -/
def localhostReport (port : String) (s : SiteStatus) : String :=
  "\n🌐 LOCALHOST SITE CHECK\n" ++ eqBar50 ++
  "\n\n🔗 URL: " ++ s.url ++
  "\n📊 Status: " ++ (if s.accessible then "✅ ACCESSIBLE" else "❌ NOT ACCESSIBLE") ++
  "\n⏱️ Response Time: " ++ optRatStr s.response_time ++ "ms" ++
  "\n📈 HTTP Status: " ++ optNatStr s.status_code ++
  "\n\n✅ Content Checks:\n" ++
  (if s.content_checks.isEmpty then "  No positive checks"
   else String.intercalate ("\n") s.content_checks) ++
  "\n\n❌ Issues Found:\n" ++
  (if s.errors.isEmpty then "  ✅ No issues detected"
   else String.intercalate ("\n") s.errors) ++
  "\n\n💡 Recommendations:\n" ++
  (if s.recommendations.isEmpty then "  👍 Site looks good!"
   else String.intercalate ("\n") s.recommendations) ++
  "\n\n🔧 Quick Troubleshooting:\n  • Make sure your development server is running\n  • Check if the port " ++
  port ++ " is correct\n  • Verify no firewall is blocking the connection\n  • Try accessing " ++
  s.url ++ " in your browser\n"

/-- qa_tools.py `check_localhost_site` (defaults `port="3000"`, `path="/"`):
one transport outcome in, one report string out; every `except` clause
converts its exception into report state, and the whole body sits inside
the tool's `try/except Exception`. -/
def check_localhost_site (port path : String) (outcome : TransportOutcome) : PyResult :=
  pyRunTool (.ok (localhostReport port (computeSiteStatus port path outcome)))
    (fun e => "❌ Error checking localhost site: " ++ e)

end QaTools

namespace QaCrewaiTools

/-- Python AST node classes distinguished by `calculate_cyclomatic_complexity`
(qa_crewai_tools.py).  `otherNode` stands for every other `ast` class
(`Name`, `Pass`, `arguments`, `Expr`, ...), which the function never
inspects beyond its children. -/
inductive PyKind where
  | functionDef
  | ifStmt
  | whileStmt
  | forStmt
  | asyncForStmt
  | exceptHandler
  | withStmt
  | asyncWithStmt
  | boolOp (nvalues : Nat)
  | listComp
  | setComp
  | dictComp
  | generatorExp
  | ifExp
  | otherNode
  deriving DecidableEq

mutual
/-- A Python AST node: its class plus its child nodes in field order. -/
inductive PyNode where
  | mk : PyKind → PyForest → PyNode
/-- The children of a node (a nested-list-free encoding of `List PyNode`). -/
inductive PyForest where
  | nil : PyForest
  | cons : PyNode → PyForest → PyForest
end

def PyNode.kind : PyNode → PyKind
  | .mk k _ => k

def PyNode.children : PyNode → PyForest
  | .mk _ c => c

def PyForest.append : PyForest → PyForest → PyForest
  | .nil, g => g
  | .cons n f, g => .cons n (PyForest.append f g)

mutual
/-- Total number of nodes in a tree. -/
def PyNode.size : PyNode → Nat
  | .mk _ c => 1 + PyForest.size c
/-- Total number of nodes in a forest. -/
def PyForest.size : PyForest → Nat
  | .nil => 0
  | .cons n f => PyNode.size n + PyForest.size f
end

/-- Queue-driven breadth-first traversal of `ast.walk`: pop a node, append
its children to the queue.  Each step pops exactly one node, so the total
node count of the initial queue is exactly the fuel needed; the fuel makes
the definition structurally recursive (and kernel-reducible). -/
def walkAux : Nat → PyForest → List PyNode
  | 0, _ => []
  | _ + 1, .nil => []
  | fuel + 1, .cons n rest => n :: walkAux fuel (rest.append n.children)

/-- `ast.walk(node)`: the node itself followed by all descendants in
breadth-first order. -/
def walk (node : PyNode) : List PyNode :=
  walkAux (PyNode.size node) (.cons node .nil)

/-- qa_crewai_tools.py `calculate_cyclomatic_complexity`.

The source's third branch is `elif isinstance(child, ast.With, ast.AsyncWith)`:
`isinstance` called with three positional arguments raises
`TypeError: isinstance expected 2 arguments, got 3` whenever that condition
is evaluated — that is, for every walked node not matched by the first two
tests.  The later `elif` branches (`BoolOp`, comprehensions) are therefore
unreachable in CPython, and the embedding raises in their place exactly as
the source does. -/
def calculate_cyclomatic_complexity (node : PyNode) : Except String Int :=
  (walk node).foldlM
    (fun complexity child =>
      match child.kind with
      | .ifStmt | .whileStmt | .forStmt | .asyncForStmt => .ok (complexity + 1)
      | .exceptHandler => .ok (complexity + 1)
      | _ => .error ("TypeError: isinstance expected 2 arguments, got 3"))
    1

/-- Modelled from the spec: the cyclomatic-complexity algorithm of §4.2 —
start at 1; add 1 for every conditional branch (`if`/`elif`/ternary), every
loop (`for`/`while`, including async variants), every exception handler
clause and every comprehension/generator expression; add `k - 1` for a
boolean chain of `k` operands.  (The source's
`calculate_cyclomatic_complexity` raises before computing anything, so the
intended value is stated from the spec's words for comparison.) -/
def spec_cyclomatic_complexity (node : PyNode) : Int :=
  1 + ((walk node).map
    (fun child =>
      match child.kind with
      | .ifStmt | .ifExp | .whileStmt | .forStmt | .asyncForStmt => (1 : Int)
      | .exceptHandler => 1
      | .listComp | .setComp | .dictComp | .generatorExp => 1
      | .boolOp nvalues => (nvalues : Int) - 1
      | _ => 0)).sum

/-- An `ast.Name` node (children irrelevant to the complexity functions). -/
def pyName : PyNode := .mk .otherNode .nil

/-- An `ast.Pass` statement node. -/
def pyPass : PyNode := .mk .otherNode .nil

/-- The `ast.arguments` node of a function definition. -/
def pyArguments : PyNode := .mk .otherNode .nil

/-- `if <test>: pass` with no `else`: children are the test expression and
the single-statement body. -/
def ifPassStmt (t : PyNode) : PyNode :=
  .mk .ifStmt (.cons t (.cons pyPass .nil))

/-- The AST of a Python function consisting of three sequential, non-nested
`if` statements:
`def f(): / if a: pass / if b: pass / if c: pass`. -/
def threeIfsFunction : PyNode :=
  .mk .functionDef
    (.cons pyArguments
      (.cons (ifPassStmt pyName)
        (.cons (ifPassStmt pyName)
          (.cons (ifPassStmt pyName) .nil))))

/-- qa_crewai_tools.py `analyze_code_structure` aggregate metric:
`total_lines / len(python_files) if python_files else 0`. -/
def avg_lines_per_file (total_lines : Nat) (python_files : List String) : ℚ :=
  if python_files = [] then 0
  else (total_lines : ℚ) / (python_files.length : ℚ)

/-- qa_crewai_tools.py `analyze_code_structure` aggregate metric:
`total_functions / len(python_files) if python_files else 0`. -/
def avg_functions_per_file (total_functions : Nat) (python_files : List String) : ℚ :=
  if python_files = [] then 0
  else (total_functions : ℚ) / (python_files.length : ℚ)

/-- Per-function record returned by `analyze_function` (qa_crewai_tools.py). -/
structure FunctionInfo where
  name : String
  file : String
  line : Nat
  complexity : Int
  lines : Nat
  has_docstring : Bool
  args : Nat
  deriving DecidableEq

/-- qa_crewai_tools.py `advanced_python_analysis`:
`avg_complexity = sum(f['complexity'] for f in functions) / total_functions
if total_functions > 0 else 0`. -/
def advanced_avg_complexity (functions : List FunctionInfo) : ℚ :=
  if functions.length > 0 then
    (((functions.map (fun f => f.complexity)).sum : Int) : ℚ) / (functions.length : ℚ)
  else 0

/-- qa_crewai_tools.py `advanced_python_analysis`:
`docstring_coverage = (len(documented_functions) / total_functions * 100)
if total_functions > 0 else 0`. -/
def docstring_coverage (functions : List FunctionInfo) : ℚ :=
  if functions.length > 0 then
    ((functions.filter (fun f => f.has_docstring)).length : ℚ) / (functions.length : ℚ) * 100
  else 0

/-- qa_crewai_tools.py `advanced_python_analysis`: percentage of simple
functions (`complexity <= 5`), 0 when there are no functions. -/
def simple_pct (functions : List FunctionInfo) : ℚ :=
  if functions.length > 0 then
    ((functions.filter (fun f => f.complexity ≤ 5)).length : ℚ) / (functions.length : ℚ) * 100
  else 0

/-- qa_crewai_tools.py `advanced_python_analysis`: percentage of complex
functions (`complexity > 10`), 0 when there are no functions. -/
def complex_pct (functions : List FunctionInfo) : ℚ :=
  if functions.length > 0 then
    ((functions.filter (fun f => f.complexity > 10)).length : ℚ) / (functions.length : ℚ) * 100
  else 0

end QaCrewaiTools

namespace QaCrew

/-- Match of the regex `C:\\Users\\[^\\]+\\` at the head of the input:
the literal `C:\Users\`, one or more non-backslash characters, and a
backslash; returns the matched length. -/
def matchUsersAt (l : List Char) : Option Nat :=
  let pre := String.toList ("C:\\Users\\")
  if pre.isPrefixOf l then
    let rest := l.drop pre.length
    let run := rest.takeWhile (fun c => c ≠ '\\')
    if run.length > 0 ∧ (rest.drop run.length).head? = some '\\' then
      some (pre.length + run.length + 1)
    else none
  else none

/-- `re.sub(r'C:\\Users\\[^\\]+\\', r'C:\\Users\\[USER]\\', path)`:
left-to-right scan replacing every non-overlapping match, continuing after
each replacement.  The fuel (initial length; every step consumes at least
one character) makes the scan structurally recursive. -/
def subUsersAux : Nat → List Char → List Char
  | 0, l => l
  | _, [] => []
  | fuel + 1, c :: rest =>
    match matchUsersAt (c :: rest) with
    | some n => String.toList ("C:\\Users\\[USER]\\") ++ subUsersAux fuel ((c :: rest).drop n)
    | none => c :: subUsersAux fuel rest

def subUsers (l : List Char) : List Char := subUsersAux l.length l

/-- `re.sub` of a literal (regex-escaped) pattern with a fixed replacement:
replace every non-overlapping occurrence, scanning left to right. -/
def replaceAllAux (pat repl : List Char) : Nat → List Char → List Char
  | 0, l => l
  | _, [] => []
  | fuel + 1, c :: rest =>
    if pat.isPrefixOf (c :: rest) ∧ pat ≠ [] then
      repl ++ replaceAllAux pat repl fuel ((c :: rest).drop pat.length)
    else c :: replaceAllAux pat repl fuel rest

def replaceAll (pat repl l : List Char) : List Char :=
  replaceAllAux pat repl l.length l

/-- qa_crew.py `QACrew._sanitize_path`: rewrite `C:\Users\<name>\` prefixes,
drop `OneDrive\Desktop\` / `Documents\` / `Downloads\` segments, and
truncate paths longer than 50 characters to `...\` plus the last two
backslash-separated components. -/
def _sanitize_path (path : List Char) : List Char :=
  let path := subUsers path
  let path := replaceAll (String.toList ("OneDrive\\Desktop\\")) [] path
  let path := replaceAll (String.toList ("Documents\\")) [] path
  let path := replaceAll (String.toList ("Downloads\\")) [] path
  if path.length > 50 then
    let parts := path.splitOn '\\'
    if parts.length > 3 then
      String.toList ("...\\") ++ List.intercalate [Char.ofNat 92] (parts.drop (parts.length - 2))
    else path
  else path

/-- Leading literal segment of the generic single-agent task description of
`run_single_agent_analysis` (qa_crew.py). -/
def taskDescHead : List Char :=
  String.toList ("Perform specialized analysis of the codebase at ")

/-- Middle literal segment of the same description, ending in
`Analyze the actual path: `. -/
def taskDescMid : List Char :=
  String.toList (" according to your expertise. Use your assigned tools to provide detailed insights and recommendations. Analyze the actual path: ")

/-- The generic task description f-string of `run_single_agent_analysis`
(qa_crew.py): the sanitized path is embedded first, but the raw
`code_path` is appended verbatim after `Analyze the actual path: `. -/
def genericTaskDescription (code_path : List Char) : List Char :=
  taskDescHead ++ _sanitize_path code_path ++ taskDescMid ++ code_path

end QaCrew


/-! ## Theorems for the claims -/

/-- Helper for C4: the `try/except Exception` wrapper always produces a
normal string return, never a raised exception. -/
theorem pyRunTool_normal (body : Except String String) (handler : String → String) :
    ∃ s, QaTools.pyRunTool body handler = .normal s := by
  cases body with
  | ok s => exact ⟨s, rfl⟩
  | error e => exact ⟨handler e, rfl⟩

/-- C1: the spec says the cyclomatic-complexity computation starts at 1 and
adds 1 per branch/loop/handler/comprehension (k−1 per boolean chain), so a
function of three sequential non-nested `if` statements gets complexity 4.
The source's `calculate_cyclomatic_complexity` instead raises
`TypeError: isinstance expected 2 arguments, got 3` for every function node
(its third `elif` calls `isinstance` with three positional arguments), in
particular for the three-`if` function, while the spec-modelled algorithm
does give 4 there — the claim is right and the code is a slip. -/
theorem spec_c1 :
    (∀ children, QaCrewaiTools.calculate_cyclomatic_complexity
        (.mk .functionDef children) =
      Except.error ("TypeError: isinstance expected 2 arguments, got 3")) ∧
    QaCrewaiTools.calculate_cyclomatic_complexity QaCrewaiTools.threeIfsFunction =
      Except.error ("TypeError: isinstance expected 2 arguments, got 3") ∧
    QaCrewaiTools.spec_cyclomatic_complexity QaCrewaiTools.threeIfsFunction = 4 := by
  refine ⟨?_, rfl, rfl⟩
  intro children
  have hsize : QaCrewaiTools.PyNode.size (.mk .functionDef children) =
      QaCrewaiTools.PyForest.size children + 1 := by
    simp [QaCrewaiTools.PyNode.size, Nat.add_comm]
  unfold QaCrewaiTools.calculate_cyclomatic_complexity QaCrewaiTools.walk
  rw [hsize]
  simp [QaCrewaiTools.walkAux, QaCrewaiTools.PyNode.kind, List.foldlM]
  rfl

/-- C2 counterexample: `_calculate_security_score` is not non-increasing
under adding a single finding — three low findings score 6, but adding one
medium finding to them scores 7. -/
theorem spec_c2_counterexample :
    QaTools._calculate_security_score ⟨[], [], ["a", "b", "c"], []⟩ = 6 ∧
    QaTools._calculate_security_score ⟨[], ["d"], ["a", "b", "c"], []⟩ = 7 := by
  constructor <;> rfl

/-- C2 (amended): both cited scores are bounded by the empty-set score 10,
and `_calculate_python_score` is non-increasing as findings accumulate; the
non-increase fails for `_calculate_security_score` (see the counterexample),
whose branch structure lets an added medium finding outrank low findings. -/
theorem spec_c2 :
    (∀ v, QaTools._calculate_security_score v ≤ 10) ∧
    QaTools._calculate_security_score ⟨[], [], [], []⟩ = 10 ∧
    (∀ r, QaTools._calculate_python_score r ≤ 10) ∧
    QaTools._calculate_python_score ⟨[], [], [], []⟩ = 10 ∧
    (∀ r r', QaTools.pythonTotalIssues r ≤ QaTools.pythonTotalIssues r' →
      QaTools._calculate_python_score r' ≤ QaTools._calculate_python_score r) := by
  refine ⟨?_, rfl, ?_, rfl, ?_⟩
  · intro v
    simp only [QaTools._calculate_security_score]
    split_ifs <;> omega
  · intro r
    simp only [QaTools._calculate_python_score]
    split_ifs <;> omega
  · intro r r' h
    simp only [QaTools._calculate_python_score]
    split_ifs <;> omega

/-- C2 witness: the monotonicity part applied at concrete inputs — the
empty result set versus one syntax error. -/
theorem spec_c2_witness :
    QaTools.pythonTotalIssues ⟨[], [], [], []⟩ ≤ QaTools.pythonTotalIssues ⟨["x"], [], [], []⟩ ∧
    QaTools._calculate_python_score ⟨["x"], [], [], []⟩ ≤
      QaTools._calculate_python_score ⟨[], [], [], []⟩ :=
  ⟨by decide, spec_c2.2.2.2.2 ⟨[], [], [], []⟩ ⟨["x"], [], [], []⟩ (by decide)⟩

/-- C3: every finding-count quality score of qa_tools.py is an integer in
[0, 10]; zero counted findings always yield exactly 10, and one or more
findings yield a score that is at least the floor 2 and never 0. -/
theorem spec_c3 :
    (∀ r, 0 ≤ QaTools._calculate_python_score r ∧
      QaTools._calculate_python_score r ≤ 10 ∧
      (QaTools.pythonTotalIssues r = 0 → QaTools._calculate_python_score r = 10) ∧
      (1 ≤ QaTools.pythonTotalIssues r →
        2 ≤ QaTools._calculate_python_score r ∧ QaTools._calculate_python_score r ≠ 0)) ∧
    (∀ v, 0 ≤ QaTools._calculate_security_score v ∧
      QaTools._calculate_security_score v ≤ 10 ∧
      (v.high_risk.length + v.medium_risk.length + v.low_risk.length = 0 →
        QaTools._calculate_security_score v = 10) ∧
      (1 ≤ v.high_risk.length + v.medium_risk.length + v.low_risk.length →
        2 ≤ QaTools._calculate_security_score v ∧ QaTools._calculate_security_score v ≠ 0)) ∧
    (∀ a, 0 ≤ QaTools._calculate_react_score a ∧
      QaTools._calculate_react_score a ≤ 10 ∧
      (QaTools.reactTotalIssues a = 0 → QaTools._calculate_react_score a = 10) ∧
      (1 ≤ QaTools.reactTotalIssues a →
        2 ≤ QaTools._calculate_react_score a ∧ QaTools._calculate_react_score a ≠ 0)) ∧
    (∀ a, 0 ≤ QaTools._calculate_sql_score a ∧
      QaTools._calculate_sql_score a ≤ 10 ∧
      (QaTools.sqlTotalIssues a = 0 → QaTools._calculate_sql_score a = 10) ∧
      (1 ≤ QaTools.sqlTotalIssues a →
        2 ≤ QaTools._calculate_sql_score a ∧ QaTools._calculate_sql_score a ≠ 0)) ∧
    (∀ a, 0 ≤ QaTools._calculate_dependency_score a ∧
      QaTools._calculate_dependency_score a ≤ 10 ∧
      (QaTools.dependencyIssues a = 0 → QaTools._calculate_dependency_score a = 10) ∧
      (1 ≤ QaTools.dependencyIssues a →
        2 ≤ QaTools._calculate_dependency_score a ∧ QaTools._calculate_dependency_score a ≠ 0)) ∧
    (∀ m, 0 ≤ QaTools._calculate_complexity_score m ∧
      QaTools._calculate_complexity_score m ≤ 10 ∧
      (QaTools.complexityTotalIssues m = 0 → QaTools._calculate_complexity_score m = 10) ∧
      (1 ≤ QaTools.complexityTotalIssues m →
        2 ≤ QaTools._calculate_complexity_score m ∧ QaTools._calculate_complexity_score m ≠ 0)) ∧
    (∀ p, 0 ≤ QaTools._calculate_best_practices_score p ∧
      QaTools._calculate_best_practices_score p ≤ 10 ∧
      (QaTools.practicesTotalIssues p = 0 → QaTools._calculate_best_practices_score p = 10) ∧
      (1 ≤ QaTools.practicesTotalIssues p →
        2 ≤ QaTools._calculate_best_practices_score p ∧
          QaTools._calculate_best_practices_score p ≠ 0)) ∧
    (∀ a, 0 ≤ QaTools._calculate_import_score a ∧
      QaTools._calculate_import_score a ≤ 10 ∧
      (QaTools.importIssues a = 0 → QaTools._calculate_import_score a = 10) ∧
      (1 ≤ QaTools.importIssues a →
        2 ≤ QaTools._calculate_import_score a ∧ QaTools._calculate_import_score a ≠ 0)) := by
  refine ⟨?_, ?_, ?_, ?_, ?_, ?_, ?_, ?_⟩ <;> intro x
  · simp only [QaTools._calculate_python_score]
    split_ifs <;> exact ⟨by omega, by omega, by omega, by omega⟩
  · simp only [QaTools._calculate_security_score]
    split_ifs <;> exact ⟨by omega, by omega, by omega, by omega⟩
  · simp only [QaTools._calculate_react_score]
    split_ifs <;> exact ⟨by omega, by omega, by omega, by omega⟩
  · simp only [QaTools._calculate_sql_score]
    split_ifs <;> exact ⟨by omega, by omega, by omega, by omega⟩
  · simp only [QaTools._calculate_dependency_score]
    split_ifs <;> exact ⟨by omega, by omega, by omega, by omega⟩
  · simp only [QaTools._calculate_complexity_score]
    exact ⟨by omega, by omega, by omega, by omega⟩
  · simp only [QaTools._calculate_best_practices_score]
    exact ⟨by omega, by omega, by omega, by omega⟩
  · simp only [QaTools._calculate_import_score]
    exact ⟨by omega, by omega, by omega, by omega⟩

/-- C3 witness: the zero-findings and one-finding cases evaluated for the
two cited score functions. -/
theorem spec_c3_witness :
    QaTools._calculate_python_score ⟨[], [], [], []⟩ = 10 ∧
    2 ≤ QaTools._calculate_python_score ⟨["x"], [], [], []⟩ ∧
    QaTools._calculate_security_score ⟨[], [], [], []⟩ = 10 ∧
    2 ≤ QaTools._calculate_security_score ⟨["x"], [], [], []⟩ :=
  ⟨(spec_c3.1 ⟨[], [], [], []⟩).2.2.1 (by decide),
   ((spec_c3.1 ⟨["x"], [], [], []⟩).2.2.2 (by decide)).1,
   (spec_c3.2.1 ⟨[], [], [], []⟩).2.2.1 (by decide),
   ((spec_c3.2.1 ⟨["x"], [], [], []⟩).2.2.2 (by decide)).1⟩

/-- C4: for every modelled filesystem state the analyzer entry points
`check_python_syntax` and `scan_security_vulnerabilities` (qa_tools.py)
return a normal report string and never a raised exception; a nonexistent
root path yields the error-report string, and a per-file read failure is
converted into a finding instead of propagating. -/
theorem spec_c4 :
    (∀ p, QaTools.check_python_syntax .missing p =
      .normal ("❌ Path does not exist: " ++ p)) ∧
    (∀ t p, ∃ s, QaTools.check_python_syntax t p = .normal s) ∧
    (∀ p, QaTools.scan_security_vulnerabilities .missing p =
      .normal ("❌ Path does not exist: " ++ p)) ∧
    (∀ t p, ∃ s, QaTools.scan_security_vulnerabilities t p = .normal s) ∧
    (∀ path e, QaTools._analyze_python_file path (.error e) =
      ⟨[path ++ " - Error reading file: " ++ e], [], [], []⟩) := by
  refine ⟨fun p => rfl, ?_, fun p => rfl, ?_, fun path e => rfl⟩
  · intro t p
    exact pyRunTool_normal _ _
  · intro t p
    exact pyRunTool_normal _ _

/-- C5 counterexample: the generic single-agent task description of
qa_crew.py embeds the raw `code_path` verbatim (after `Analyze the actual
path: `), although `_sanitize_path` rewrites that very path — report text
does contain an unsanitized user path. -/
theorem spec_c5_counterexample :
    String.toList ("C:\\Users\\alice\\project") <:+
      QaCrew.genericTaskDescription (String.toList ("C:\\Users\\alice\\project")) ∧
    QaCrew._sanitize_path (String.toList ("C:\\Users\\alice\\project")) ≠
      String.toList ("C:\\Users\\alice\\project") := by
  exact ⟨⟨_, rfl⟩, by decide⟩

/-- C5 (amended): the sanitizer is applied to the path occurrence at the
head of each task description, but the description then also embeds the raw
target path verbatim after `Analyze the actual path: `, so report text is
not free of unsanitized user paths. -/
theorem spec_c5 (code_path : List Char) :
    QaCrew.genericTaskDescription code_path =
      QaCrew.taskDescHead ++ QaCrew._sanitize_path code_path ++
        QaCrew.taskDescMid ++ code_path ∧
    code_path <:+ QaCrew.genericTaskDescription code_path :=
  ⟨rfl, ⟨_, rfl⟩⟩

/-- C6: scanning a file whose content is exactly `password = "abc123"`
yields exactly one high-risk finding, identifying a hardcoded password, and
no other finding in any list. -/
theorem spec_c6 :
    QaTools._scan_file_security ("test.py")
      (Except.ok (String.toList ("password = \"abc123\""))) =
    ⟨["test.py - Hardcoded password"], [], [], []⟩ := by
  decide

/-- C7 counterexample: `_analyze_dependency_file` produces identical output
for `package==1.2.3` and `package==9.9.9` — its result carries no
`declared_version` record at all, so the claimed DependencyRecord with
`declared_version = "1.2.3"` is not produced. -/
theorem spec_c7_counterexample :
    QaTools._analyze_dependency_file ("requirements.txt") ["package==1.2.3"] =
    QaTools._analyze_dependency_file ("requirements.txt") ["package==9.9.9"] := by
  decide

/-- C7 (amended): a requirements line `package==1.2.3` is counted as one
dependency and produces zero unpinned-dependency findings (no version is
recorded — the analyzer keeps only a count); a bare line `package` is
counted and yields exactly one `no version specified` finding; comment
lines and blank lines yield neither a count nor a finding. -/
theorem spec_c7 :
    QaTools._analyze_dependency_file ("requirements.txt") ["package==1.2.3"] =
      ⟨1, [], [], [], []⟩ ∧
    QaTools._analyze_dependency_file ("requirements.txt") ["package"] =
      ⟨1, [], [], ["requirements.txt - package (no version specified)"], []⟩ ∧
    QaTools._analyze_dependency_file ("requirements.txt") ["# comment"] =
      ⟨0, [], [], [], []⟩ ∧
    QaTools._analyze_dependency_file ("requirements.txt") ["   "] =
      ⟨0, [], [], [], []⟩ := by
  refine ⟨by decide, by decide, by decide, by decide⟩

/-- C8: the probe issues its single GET with timeout 10; a received
2xx–4xx response is reported accessible with its status code and rounded
latency; no listener is reported as connection refused; exceeding the
timeout is reported as a request timeout; and every transport outcome
yields a normal report string, never a raised exception. -/
theorem spec_c8 :
    (∀ port path, (QaTools.probeRequest port path).timeout = 10) ∧
    (∀ port path status txt elapsed, 200 ≤ status → status ≤ 499 →
      (QaTools.computeSiteStatus port path (.response status txt elapsed)).accessible = true ∧
      (QaTools.computeSiteStatus port path (.response status txt elapsed)).status_code =
        some status ∧
      (QaTools.computeSiteStatus port path (.response status txt elapsed)).response_time =
        some (QaTools.pyRound2 (elapsed * 1000))) ∧
    (∀ port path,
      (QaTools.computeSiteStatus port path .connectionError).accessible = false ∧
      (QaTools.computeSiteStatus port path .connectionError).errors =
        ["❌ Connection refused - site not running on port " ++ port]) ∧
    (∀ port path,
      (QaTools.computeSiteStatus port path .timeoutError).errors =
        ["❌ Request timeout - site taking too long to respond"]) ∧
    (∀ port path outcome, ∃ s,
      QaTools.check_localhost_site port path outcome = .normal s) := by
  refine ⟨fun port path => rfl, ?_, fun port path => ⟨rfl, rfl⟩,
    fun port path => rfl, ?_⟩
  · intro port path status txt elapsed h1 h2
    exact ⟨rfl, rfl, rfl⟩
  · intro port path outcome
    exact ⟨_, rfl⟩

/-- C8 witness: a 200 response with a quarter-second latency on port 3000. -/
theorem spec_c8_witness :
    (QaTools.computeSiteStatus ("3000") ("/")
      (.response 200 (String.toList ("<html></html>")) (1/4))).accessible = true ∧
    (QaTools.computeSiteStatus ("3000") ("/")
      (.response 200 (String.toList ("<html></html>")) (1/4))).status_code = some 200 ∧
    (QaTools.computeSiteStatus ("3000") ("/")
      (.response 200 (String.toList ("<html></html>")) (1/4))).response_time =
      some (QaTools.pyRound2 ((1/4) * 1000)) :=
  spec_c8.2.1 ("3000") ("/") 200 (String.toList ("<html></html>")) (1/4)
    (by decide) (by decide)

/-- C9: when the analyzed target has zero Python files or zero functions,
each aggregate average of qa_crewai_tools.py — average lines per file,
average functions per file, average complexity, docstring coverage and the
complexity percentages — is defined as 0 (the guarded division is never
taken with denominator 0). -/
theorem spec_c9 :
    (∀ total_lines, QaCrewaiTools.avg_lines_per_file total_lines [] = 0) ∧
    (∀ total_functions, QaCrewaiTools.avg_functions_per_file total_functions [] = 0) ∧
    QaCrewaiTools.advanced_avg_complexity [] = 0 ∧
    QaCrewaiTools.docstring_coverage [] = 0 ∧
    QaCrewaiTools.simple_pct [] = 0 ∧
    QaCrewaiTools.complex_pct [] = 0 :=
  ⟨fun _ => rfl, fun _ => rfl, rfl, rfl, rfl, rfl⟩

/-- C10: `_format_issues` renders the fixed `No issues found` line for an
empty list, renders only the first 10 findings (its output is unchanged by
truncating the input to 10, so later findings are silently omitted), and
the rendered finding count never exceeds 10. -/
theorem spec_c10 :
    QaTools._format_issues [] = "  ✅ No issues found" ∧
    (∀ issues : List String,
      QaTools._format_issues issues = QaTools._format_issues (issues.take 10)) ∧
    (∀ issues : List String,
      ((issues.take 10).map (fun issue => "  • " ++ issue)).length ≤ 10) := by
  refine ⟨rfl, ?_, ?_⟩
  · intro issues
    unfold QaTools._format_issues
    cases issues with
    | nil => rfl
    | cons a l =>
      simp [List.take_take]
  · intro issues
    simp only [List.length_map, List.length_take]
    omega
